import Mathlib

/-!
Shallow embedding of the devicemapper thin-pool device-set manager
(`daemon/graphdriver/devmapper/deviceset.go`): the 24-bit device-ID bitmap
allocator, the transaction log with startup recovery, the per-device JSON
metadata store, mount reference counting, pool resize, and the startup
metadata walk, together with proofs of the specified properties.

Go methods that mutate `*DeviceSet` become functions `DeviceSet → DeviceSet`
(or `DeviceSet → DeviceSet × Option String` when they can fail: the returned
state is the state after the call, the `Option String` is the returned
error).  External effects (files in the metadata directory, the transaction
file, driver-level thin devices, mount/unmount syscalls) are carried as
fields of the state.  Injectable I/O and driver failures are threaded
through an `ErrOracle`.
-/

namespace Devmapper

/-- 24-bit pool limit on device IDs (`maxDeviceID = 0xffffff`). -/
def maxDeviceID : Nat := 0xffffff

/-- Size in bytes of the device-ID bitmap (`deviceIDMapSz`). -/
def deviceIDMapSz : Nat := (maxDeviceID + 1) / 8

/-- Name of the device-set metadata file (`deviceSetMetaFile`). -/
def deviceSetMetaFile : String := "deviceset-metadata"

/-- The persisted JSON fields of a `devInfo` metadata file.  `Hash` carries
the tag `json:"-"` in the source and is not persisted. -/
structure DevRecord where
  DeviceID : Nat
  Size : Nat
  TransactionID : Nat
  Initialized : Bool
deriving DecidableEq

/-- In-memory `devInfo`: the persisted fields plus the transient mount
state (`mountCount`, `mountPath`).  `mountCount` is a Go `int`, so it is
modelled as `Int` to make the non-negativity invariant meaningful. -/
structure DevInfo where
  Hash : String
  DeviceID : Nat
  Size : Nat
  TransactionID : Nat
  Initialized : Bool
  mountCount : Int
  mountPath : String
deriving DecidableEq

/-- Content of a file in the metadata directory: either a device record
that `json.Unmarshal` accepts, or bytes it rejects. -/
inductive FileData where
  | record (r : DevRecord)
  | junk
deriving DecidableEq

/-- The single in-flight transaction record (`transaction`). -/
structure Txn where
  OpenTransactionID : Nat
  DeviceIDHash : String
  DeviceID : Nat
deriving DecidableEq

/-- Injected failures for the fallible primitives: `writeFails` makes
`writeMetaFile` fail, `metaRemoveFails` makes `os.RemoveAll` of a device
metadata file fail, `txnRemoveFails` makes removal of the transaction file
fail, `driverDeleteFails` makes `devicemapper.DeleteDevice` fail, and
`setTidFails` makes `devicemapper.SetTransactionId` fail. -/
structure ErrOracle where
  writeFails : Bool
  metaRemoveFails : Bool
  txnRemoveFails : Bool
  driverDeleteFails : Bool
  setTidFails : Bool
deriving DecidableEq

/-- The oracle of an execution in which no I/O or driver call fails. -/
def noErr : ErrOracle := ⟨false, false, false, false, false⟩

/-- The `DeviceSet` state together with the external state it acts on.
`deviceIDMap` is the bitmap byte array (index → byte value); `Devices` is
the in-memory hash → `devInfo` map; `metaFiles` maps a file name in the
metadata directory to its content; `txnFile` is the transaction metadata
file; `poolDevs` is the set of device IDs existing in the thin pool at
driver level; `driverTransactionID` is the transaction ID stored in the
pool superblock; the event counters record mount/unmount syscalls and
`deactivateDevice` calls; the last four fields model the loopback backing
file and pool state used by `ResizePool`. -/
structure DeviceSet where
  TransactionID : Nat
  OpenTransactionID : Nat
  DeviceIDHash : String
  DeviceID : Nat
  NextDeviceID : Nat
  deviceIDMap : Nat → Nat
  Devices : String → Option DevInfo
  metaFiles : String → Option FileData
  txnFile : Option Txn
  poolDevs : Nat → Bool
  driverTransactionID : Nat
  mountEvents : Nat
  unmountEvents : Nat
  deactivateCalls : Nat
  dataFileSize : Int
  dataLoopCapacity : Int
  poolCapacity : Int
  poolSuspended : Bool

/-- `markDeviceIDUsed`: set bit `deviceID % 8` of byte `deviceID / 8`. -/
def markDeviceIDUsed (s : DeviceSet) (deviceID : Nat) : DeviceSet :=
  { s with deviceIDMap := fun idx =>
      if idx = deviceID / 8 then s.deviceIDMap idx ||| 1 <<< (deviceID % 8)
      else s.deviceIDMap idx }

/-- `markDeviceIDFree`: clear bit `deviceID % 8` of byte `deviceID / 8`
(the Go byte complement `^(1 << i)` is `(1 <<< i) ^^^ 255`). -/
def markDeviceIDFree (s : DeviceSet) (deviceID : Nat) : DeviceSet :=
  { s with deviceIDMap := fun idx =>
      if idx = deviceID / 8 then s.deviceIDMap idx &&& (1 <<< (deviceID % 8) ^^^ 255)
      else s.deviceIDMap idx }

/-- `isDeviceIDFree`: bit `deviceID % 8` of byte `deviceID / 8` is clear. -/
def isDeviceIDFree (s : DeviceSet) (deviceID : Nat) : Bool :=
  s.deviceIDMap (deviceID / 8) &&& 1 <<< (deviceID % 8) == 0

/-- `incNextDeviceID`: IDs are 24-bit, so wrap around. -/
def incNextDeviceID (s : DeviceSet) : DeviceSet :=
  { s with NextDeviceID := (s.NextDeviceID + 1) &&& maxDeviceID }

/-- The `for i := 0; i <= maxDeviceID; i++` search loop of
`getNextFreeDeviceID`, with the remaining iteration count explicit. -/
def scanLoop (s : DeviceSet) : Nat → DeviceSet × Option Nat
  | 0 => (s, none)
  | n + 1 =>
    if isDeviceIDFree s s.NextDeviceID then
      (markDeviceIDUsed s s.NextDeviceID, some s.NextDeviceID)
    else
      scanLoop (incNextDeviceID s) n

/-- `getNextFreeDeviceID`: advance the cursor once, then scan at most
`maxDeviceID + 1` positions; `none` is the
`"Unable to find a free device ID"` error. -/
def getNextFreeDeviceID (s : DeviceSet) : DeviceSet × Option Nat :=
  scanLoop (incNextDeviceID s) (maxDeviceID + 1)

/-- Position visited at step `k` of a scan starting at `start`. -/
def scanPos (start k : Nat) : Nat :=
  (start + k) % (maxDeviceID + 1)

/-- `metadataFile`: name of a device's metadata file inside the metadata
directory; the base device (empty hash) is stored under `"base"`. -/
def metadataFileName (hash : String) : String :=
  if hash = "" then "base" else hash

/-- `removeMetadata`: `os.RemoveAll` of the device's metadata file.
Removing an absent file succeeds; a failure leaves the directory alone. -/
def removeMetadata (o : ErrOracle) (s : DeviceSet) (hash : String) :
    DeviceSet × Option String :=
  if o.metaRemoveFails then
    (s, some ("Error removing metadata file " ++ metadataFileName hash))
  else
    ({ s with metaFiles := fun n =>
        if n = metadataFileName hash then none else s.metaFiles n }, none)

/-- `saveMetadata`: marshal the persisted fields of `info` and write them to
its metadata file via `writeMetaFile` (temp file, fsync, atomic rename —
modelled as one atomic update that either fully happens or fails). -/
def saveMetadata (o : ErrOracle) (s : DeviceSet) (info : DevInfo) :
    DeviceSet × Option String :=
  if o.writeFails then (s, some "Error writing metadata")
  else
    ({ s with metaFiles := fun n =>
        if n = metadataFileName info.Hash then
          some (.record ⟨info.DeviceID, info.Size, info.TransactionID, info.Initialized⟩)
        else s.metaFiles n }, none)

/-- `loadMetadata`: read the device's metadata file and unmarshal it into a
fresh `devInfo` carrying the given hash; `nil` when the file is absent or
does not parse. -/
def loadMetadata (s : DeviceSet) (hash : String) : Option DevInfo :=
  match s.metaFiles (metadataFileName hash) with
  | some (.record r) =>
    some ⟨hash, r.DeviceID, r.Size, r.TransactionID, r.Initialized, 0, ""⟩
  | _ => none

/-- `allocateTransactionID`: `OpenTransactionID = TransactionID + 1`. -/
def allocateTransactionID (s : DeviceSet) : DeviceSet :=
  { s with OpenTransactionID := s.TransactionID + 1 }

/-- `saveTransactionMetaData`: marshal the transaction record and write the
transaction metadata file. -/
def saveTransactionMetaData (o : ErrOracle) (s : DeviceSet) : DeviceSet × Option String :=
  if o.writeFails then (s, some "Error saving transaction metadata")
  else ({ s with txnFile := some ⟨s.OpenTransactionID, s.DeviceIDHash, s.DeviceID⟩ }, none)

/-- `removeTransactionMetaData`: `os.RemoveAll` of the transaction file. -/
def removeTransactionMetaData (o : ErrOracle) (s : DeviceSet) : DeviceSet × Option String :=
  if o.txnRemoveFails then (s, some "Unable to remove transaction meta file")
  else ({ s with txnFile := none }, none)

/-- `loadTransactionMetaData`: read the transaction file; when it does not
exist there is no active transaction and `OpenTransactionID` is set to
`TransactionID`. -/
def loadTransactionMetaData (s : DeviceSet) : DeviceSet :=
  match s.txnFile with
  | none => { s with OpenTransactionID := s.TransactionID }
  | some t =>
    { s with OpenTransactionID := t.OpenTransactionID,
             DeviceIDHash := t.DeviceIDHash, DeviceID := t.DeviceID }

/-- `openTransaction`: allocate `OpenTransactionID`, record the target hash
and device ID, and persist the transaction file. -/
def openTransaction (o : ErrOracle) (s : DeviceSet) (hash : String) (DeviceID : Nat) :
    DeviceSet × Option String :=
  saveTransactionMetaData o
    { allocateTransactionID s with DeviceIDHash := hash, DeviceID := DeviceID }

/-- `refreshTransaction`: rewrite the device ID of the open transaction. -/
def refreshTransaction (o : ErrOracle) (s : DeviceSet) (DeviceID : Nat) :
    DeviceSet × Option String :=
  saveTransactionMetaData o { s with DeviceID := DeviceID }

/-- `updatePoolTransactionID`: ask the driver to persist
`OpenTransactionID` into the pool superblock, then mirror it into
`TransactionID`. -/
def updatePoolTransactionID (o : ErrOracle) (s : DeviceSet) : DeviceSet × Option String :=
  if o.setTidFails then (s, some "Error setting devmapper transaction ID")
  else
    ({ s with driverTransactionID := s.OpenTransactionID,
              TransactionID := s.OpenTransactionID }, none)

/-- `closeTransaction` forwards to `updatePoolTransactionID`. -/
def closeTransaction (o : ErrOracle) (s : DeviceSet) : DeviceSet × Option String :=
  updatePoolTransactionID o s

/-- Driver-level `devicemapper.DeleteDevice`: drop the thin device with the
given ID from the pool. -/
def driverDeleteDevice (s : DeviceSet) (id : Nat) : DeviceSet :=
  { s with poolDevs := fun j => if j = id then false else s.poolDevs j }

/-- `rollbackTransaction`: best-effort delete of the orphaned driver device
(failure only logged), removal of its metadata file (the bitmap bit is
freed only when that removal succeeds), removal of the transaction file
(failure only logged); always returns nil. -/
def rollbackTransaction (o : ErrOracle) (s : DeviceSet) : DeviceSet × Option String :=
  let s1 := if o.driverDeleteFails then s else driverDeleteDevice s s.DeviceID
  let s2 := match removeMetadata o s1 s.DeviceIDHash with
    | (t, some _) => t
    | (t, none) => markDeviceIDFree t s.DeviceID
  ((removeTransactionMetaData o s2).1, none)

/-- `processPendingTransaction`: load the transaction file; if the pool
transaction ID equals the open one there is nothing to roll back; if the
open one is smaller, something is wrong and the function bails out after
logging; otherwise the incomplete transaction is rolled back and
`OpenTransactionID` is reset to `TransactionID`. -/
def processPendingTransaction (o : ErrOracle) (s : DeviceSet) : DeviceSet × Option String :=
  if (loadTransactionMetaData s).TransactionID =
      (loadTransactionMetaData s).OpenTransactionID then
    (loadTransactionMetaData s, none)
  else if (loadTransactionMetaData s).OpenTransactionID <
      (loadTransactionMetaData s).TransactionID then
    (loadTransactionMetaData s, none)
  else
    match rollbackTransaction o (loadTransactionMetaData s) with
    | (s2, some e) => (s2, some ("Rolling back open transaction failed: " ++ e))
    | (s2, none) => ({ s2 with OpenTransactionID := s2.TransactionID }, none)

/-- Concrete state whose bitmap has every bit set (every device ID used). -/
def fullSet : DeviceSet :=
  { TransactionID := 0, OpenTransactionID := 0, DeviceIDHash := "", DeviceID := 0,
    NextDeviceID := 0, deviceIDMap := fun _ => 255, Devices := fun _ => none,
    metaFiles := fun _ => none, txnFile := none, poolDevs := fun _ => false,
    driverTransactionID := 0, mountEvents := 0, unmountEvents := 0, deactivateCalls := 0,
    dataFileSize := 0, dataLoopCapacity := 0, poolCapacity := 0, poolSuspended := false }

/-- Concrete state with an abandoned transaction for hash `"L1"` and
device ID 42 in its transaction log, as left by a crash mid-operation. -/
def crashedSet : DeviceSet :=
  { fullSet with
    TransactionID := 5,
    txnFile := some { OpenTransactionID := 6, DeviceIDHash := "L1", DeviceID := 42 },
    metaFiles := fun n => if n = "L1" then
        some (.record { DeviceID := 42, Size := 1024, TransactionID := 6,
                        Initialized := false })
      else none,
    poolDevs := fun j => j = 42 }

/-- Oracle whose only possible failure is the `writeMetaFile` write. -/
def writeOracle (b : Bool) : ErrOracle := ⟨b, false, false, false, false⟩

/-- Oracle whose only possible failure is the driver `SetTransactionId`. -/
def setTidOracle (b : Bool) : ErrOracle := ⟨false, false, false, false, b⟩

/-- One bracketed transaction as the program performs it: an
`openTransaction` (whose transaction-file write may fail, in which case the
caller frees the device ID and aborts before any driver call), a list of
`refreshTransaction` calls whose errors the caller ignores, and a
`closeTransaction` whose driver `SetTransactionId` may fail. -/
structure TxnOp where
  hash : String
  id : Nat
  refreshes : List (Nat × Bool)
  openFails : Bool
  closeFails : Bool

/-- A step of the transaction-log lifecycle: a bracketed transaction or the
startup recovery (`processPendingTransaction`). -/
inductive PoolOp where
  | txnop (t : TxnOp)
  | recovery (o : ErrOracle)

/-- Run the refresh calls of a transaction; the source drops the error
returned by `refreshTransaction`, so only the state is kept. -/
def runRefreshes (s : DeviceSet) : List (Nat × Bool) → DeviceSet
  | [] => s
  | (id, b) :: rest => runRefreshes (refreshTransaction (writeOracle b) s id).1 rest

/-- Run one `PoolOp` from a state. -/
def runPoolOp (s : DeviceSet) : PoolOp → DeviceSet
  | .txnop t =>
    match openTransaction (writeOracle t.openFails) s t.hash t.id with
    | (s1, some _) => s1
    | (s1, none) =>
      (closeTransaction (setTidOracle t.closeFails) (runRefreshes s1 t.refreshes)).1
  | .recovery o => (processPendingTransaction o s).1

/-- Run a sequence of `PoolOp`s. -/
def runPoolOps (s : DeviceSet) (ops : List PoolOp) : DeviceSet :=
  ops.foldl runPoolOp s

/-- Update the in-memory device map at `hash` (the Go code mutates the
`devInfo` in place through its shared pointer). -/
def updateDev (s : DeviceSet) (hash : String) (info : DevInfo) : DeviceSet :=
  { s with Devices := fun k => if k = hash then some info else s.Devices k }

/-- `lookupDevice`: consult the in-memory map, falling back to
`loadMetadata` and caching the loaded entry; `none` is the
`"Unknown device"` error. -/
def lookupDevice (s : DeviceSet) (hash : String) : DeviceSet × Option DevInfo :=
  match s.Devices hash with
  | some info => (s, some info)
  | none =>
    match loadMetadata s hash with
    | none => (s, none)
    | some info => (updateDev s hash info, some info)

/-- `deactivateDevice`: driver-level teardown of an active device; only the
fact that the call was made matters here, counted in `deactivateCalls`. -/
def deactivateDevice (s : DeviceSet) : DeviceSet :=
  { s with deactivateCalls := s.deactivateCalls + 1 }

/-- `MountDevice`: when the device is already mounted, the requested path
must equal the recorded mount path and only the reference count is
incremented (no second mount syscall); otherwise the device is activated,
its filesystem probed, and one mount syscall issued with count set to 1. -/
def MountDevice (s : DeviceSet) (hash path mountLabel : String) :
    DeviceSet × Option String :=
  match lookupDevice s hash with
  | (s1, none) => (s1, some ("Unknown device " ++ hash))
  | (s1, some info) =>
    if info.mountCount > 0 then
      if path ≠ info.mountPath then
        (s1, some ("Trying to mount devmapper device in multiple places (" ++
          info.mountPath ++ ", " ++ path ++ ")"))
      else
        (updateDev s1 hash { info with mountCount := info.mountCount + 1 }, none)
    else
      (updateDev { s1 with mountEvents := s1.mountEvents + 1 } hash
        { info with mountCount := 1, mountPath := path }, none)

/-- `UnmountDevice`: error when the count is already 0; otherwise decrement
it, and when it reaches 0 issue the real unmount syscall, deactivate the
device, and clear the mount path. -/
def UnmountDevice (s : DeviceSet) (hash : String) : DeviceSet × Option String :=
  match lookupDevice s hash with
  | (s1, none) => (s1, some ("Unknown device " ++ hash))
  | (s1, some info) =>
    if info.mountCount = 0 then
      (s1, some ("UnmountDevice: device not-mounted id " ++ hash))
    else
      if info.mountCount - 1 > 0 then
        (updateDev s1 hash { info with mountCount := info.mountCount - 1 }, none)
      else
        (updateDev (deactivateDevice { s1 with unmountEvents := s1.unmountEvents + 1 })
          hash { info with mountCount := info.mountCount - 1, mountPath := "" }, none)

/-- `registerDevice`: build the `devInfo`, insert it into the in-memory
map, then write its metadata file; when the write fails the fresh entry is
deleted from the map again and the error returned. -/
def registerDevice (o : ErrOracle) (s : DeviceSet) (id : Nat) (hash : String)
    (size transactionID : Nat) : DeviceSet × Option String :=
  match saveMetadata o (updateDev s hash ⟨hash, id, size, transactionID, false, 0, ""⟩)
      ⟨hash, id, size, transactionID, false, 0, ""⟩ with
  | (s2, some e) =>
    ({ s2 with Devices := fun k => if k = hash then none else s2.Devices k }, some e)
  | (s2, none) => (s2, none)

/-- The successive states `registerDevice` passes through, as atomic steps:
initial, after the map insert, after the file write (or after the rollback
delete when the write fails). -/
def registerDeviceStates (o : ErrOracle) (s : DeviceSet) (id : Nat) (hash : String)
    (size transactionID : Nat) : List DeviceSet :=
  [s, updateDev s hash ⟨hash, id, size, transactionID, false, 0, ""⟩,
    (registerDevice o s id hash size transactionID).1]

/-- `unregisterDevice`: delete the entry from the in-memory map, then
remove its metadata file, returning that removal's error if any. -/
def unregisterDevice (o : ErrOracle) (s : DeviceSet) (id : Nat) (hash : String) :
    DeviceSet × Option String :=
  removeMetadata o
    { s with Devices := fun k => if k = hash then none else s.Devices k } hash

/-- The successive states `unregisterDevice` passes through: initial, after
the map delete, after the file removal. -/
def unregisterDeviceStates (o : ErrOracle) (s : DeviceSet) (id : Nat) (hash : String) :
    List DeviceSet :=
  [s, { s with Devices := fun k => if k = hash then none else s.Devices k },
    (unregisterDevice o s id hash).1]

/-- Concrete state in which hash `"h"` has just been registered. -/
def regdSet : DeviceSet :=
  (registerDevice noErr fullSet 42 "h" 1024 1).1

/-- `ResizePool`: open and stat the backing data file; a request smaller
than its current size fails with the cannot-shrink error before anything
is touched; otherwise the backing file is grown, the loopback capacity
reloaded, and the pool table reloaded between a suspend and a resume. -/
def ResizePool (s : DeviceSet) (size : Int) : DeviceSet × Option String :=
  if s.dataFileSize > size then (s, some "Can't shrink file")
  else
    ({ s with
        dataFileSize := size,
        dataLoopCapacity := size,
        poolCapacity := size,
        poolSuspended := false }, none)

/-- `strings.HasSuffix`: executable suffix test on the characters. -/
def strEnds (s sfx : String) : Bool := sfx.data.isSuffixOf s.data

/-- `strings.HasPrefix`: executable test on the leading characters. -/
def strStarts (s p : String) : Bool := p.data.isPrefixOf s.data

/-- `deviceFileWalkFunction` applied to one regular file (name, content)
of the metadata directory: skip `.migrated` files, dotfiles and the
device-set metadata file; map the file name `base` back to the empty hash;
return an error when the file does not parse; ignore (log only) parsed
records whose device ID is above the 24-bit limit; otherwise mark the ID
used in the bitmap. -/
def deviceFileWalkFunction (s : DeviceSet) (name : String) (content : FileData) :
    DeviceSet × Option String :=
  if strEnds name ".migrated" then (s, none)
  else if strStarts name "." then (s, none)
  else if name = deviceSetMetaFile then (s, none)
  else
    match content with
    | .junk =>
      (s, some ("Error loading device metadata file " ++
        (if name = "base" then "" else name)))
    | .record r =>
      if r.DeviceID > maxDeviceID then (s, none)
      else (markDeviceIDUsed s r.DeviceID, none)

/-- `constructDeviceIDMap`: the `filepath.Walk` over the regular files of
the metadata directory; the walk aborts on the first error returned by
`deviceFileWalkFunction`. -/
def constructDeviceIDMap (s : DeviceSet) :
    List (String × FileData) → DeviceSet × Option String
  | [] => (s, none)
  | (name, content) :: rest =>
    match deviceFileWalkFunction s name content with
    | (s1, none) => constructDeviceIDMap s1 rest
    | (s1, some e) => (s1, some e)

/-- The `CreateSnapDevice` retry loop of `createRegisterSnapDevice`: when
the pool reports the target ID as existing (`DeviceIdExists`) a fresh ID
is allocated, the transaction refreshed (its error dropped, as in the
source) and the creation retried; on success the thin snapshot device is
added to the pool.  The fuel bounds the retries; `none` stands for the
allocator-exhaustion error. -/
def snapLoop (o : ErrOracle) : DeviceSet → Nat → Nat → DeviceSet × Option Nat
  | s, _, 0 => (s, none)
  | s, deviceID, fuel + 1 =>
    if s.poolDevs deviceID then
      match getNextFreeDeviceID s with
      | (s1, none) => (s1, none)
      | (s1, some newID) => snapLoop o (refreshTransaction o s1 newID).1 newID fuel
    else
      ({ s with poolDevs := fun j => if j = deviceID then true else s.poolDevs j },
        some deviceID)

/-- `createRegisterSnapDevice`: allocate an ID, open a transaction, create
the snapshot through the retry loop, register the metadata with the base
device's size, and close the transaction; each failure path deletes the
partially created device and frees the ID before returning. -/
def createRegisterSnapDevice (o : ErrOracle) (s : DeviceSet) (hash : String)
    (baseInfo : DevInfo) : DeviceSet × Option String :=
  match getNextFreeDeviceID s with
  | (s1, none) => (s1, some "Unable to find a free device ID")
  | (s1, some deviceID) =>
    match openTransaction o s1 hash deviceID with
    | (s2, some e) => (markDeviceIDFree s2 deviceID, some e)
    | (s2, none) =>
      match snapLoop o s2 deviceID (maxDeviceID + 1) with
      | (s3, none) => (s3, some "Unable to find a free device ID")
      | (s3, some finalID) =>
        match registerDevice o s3 finalID hash baseInfo.Size s3.OpenTransactionID with
        | (s4, some e) =>
          (markDeviceIDFree (driverDeleteDevice s4 finalID) finalID, some e)
        | (s4, none) =>
          match closeTransaction o s4 with
          | (s5, some e) =>
            (markDeviceIDFree (driverDeleteDevice
              (unregisterDevice o s5 finalID hash).1 finalID) finalID, some e)
          | (s5, none) => (s5, none)

/-- `AddDevice`: look up the base device, reject an already-registered
hash, then create and register the snapshot. -/
def AddDevice (o : ErrOracle) (s : DeviceSet) (hash baseHash : String) :
    DeviceSet × Option String :=
  match lookupDevice s baseHash with
  | (s1, none) => (s1, some ("Unknown device " ++ baseHash))
  | (s1, some baseInfo) =>
    match lookupDevice s1 hash with
    | (s2, some _) => (s2, some ("device " ++ hash ++ " already exists"))
    | (s2, none) => createRegisterSnapDevice o s2 hash baseInfo

/-- Concrete state with an initialized base device of hash `"base"`. -/
def snapBaseSet : DeviceSet :=
  { fullSet with
    TransactionID := 3,
    deviceIDMap := fun _ => 0,
    Devices := fun k => if k = "base" then
        some { Hash := "base", DeviceID := 1, Size := 10240, TransactionID := 0,
               Initialized := true, mountCount := 0, mountPath := "" }
      else none }

/-- Concrete state with a device of hash `"m"` mounted twice at `/mnt/a`. -/
def mountedSet : DeviceSet :=
  { fullSet with
    Devices := fun k => if k = "m" then
        some { Hash := "m", DeviceID := 9, Size := 2048, TransactionID := 1,
               Initialized := false, mountCount := 2, mountPath := "/mnt/a" }
      else none }

theorem maxDeviceID_eq : maxDeviceID = 2 ^ 24 - 1 := by norm_num [maxDeviceID]

theorem and_maxDeviceID_eq_mod (x : Nat) : x &&& maxDeviceID = x % (maxDeviceID + 1) := by
  rw [maxDeviceID_eq]
  have h2 : 2 ^ 24 - 1 + 1 = 2 ^ 24 := by norm_num
  rw [h2]
  exact Nat.and_pow_two_sub_one_eq_mod x 24

theorem land_one_shiftLeft_eq_zero_iff (x j : Nat) :
    (x &&& 1 <<< j == 0) = !x.testBit j := by
  rw [Nat.shiftLeft_eq, one_mul, Nat.and_two_pow]
  cases h : x.testBit j
  · simp [h]
  · simp [h, Nat.pos_iff_ne_zero.mp (Nat.two_pow_pos j)]

theorem isDeviceIDFree_eq (s : DeviceSet) (id : Nat) :
    isDeviceIDFree s id = !(s.deviceIDMap (id / 8)).testBit (id % 8) := by
  rw [isDeviceIDFree, land_one_shiftLeft_eq_zero_iff]

theorem testBit_255 (j : Nat) (h : j < 8) : Nat.testBit 255 j = true := by
  have h255 : (255 : Nat) = 2 ^ 8 - 1 := by norm_num
  interval_cases j <;> decide

theorem isDeviceIDFree_markUsed_self (s : DeviceSet) (id : Nat) :
    isDeviceIDFree (markDeviceIDUsed s id) id = false := by
  rw [isDeviceIDFree_eq]
  simp [markDeviceIDUsed, Nat.shiftLeft_eq, one_mul, Nat.testBit_lor, Nat.testBit_two_pow]

theorem isDeviceIDFree_markUsed_other (s : DeviceSet) (id id' : Nat) (h : id' ≠ id) :
    isDeviceIDFree (markDeviceIDUsed s id) id' = isDeviceIDFree s id' := by
  rw [isDeviceIDFree_eq, isDeviceIDFree_eq]
  by_cases hb : id' / 8 = id / 8
  · have hm : id' % 8 ≠ id % 8 := by omega
    have hm2 : id % 8 ≠ id' % 8 := fun hc => hm hc.symm
    simp [markDeviceIDUsed, hb, Nat.shiftLeft_eq, one_mul, Nat.testBit_lor,
      Nat.testBit_two_pow, hm2]
  · simp [markDeviceIDUsed, hb]

theorem isDeviceIDFree_markFree_self (s : DeviceSet) (id : Nat) :
    isDeviceIDFree (markDeviceIDFree s id) id = true := by
  rw [isDeviceIDFree_eq]
  have hj : id % 8 < 8 := Nat.mod_lt _ (by norm_num)
  simp [markDeviceIDFree, Nat.shiftLeft_eq, one_mul, Nat.testBit_land, Nat.testBit_xor,
    Nat.testBit_two_pow, testBit_255 _ hj]

theorem isDeviceIDFree_markFree_other (s : DeviceSet) (id id' : Nat) (h : id' ≠ id) :
    isDeviceIDFree (markDeviceIDFree s id) id' = isDeviceIDFree s id' := by
  rw [isDeviceIDFree_eq, isDeviceIDFree_eq]
  by_cases hb : id' / 8 = id / 8
  · have hm : id' % 8 ≠ id % 8 := by omega
    have hm2 : id % 8 ≠ id' % 8 := fun hc => hm hc.symm
    have hj : id' % 8 < 8 := Nat.mod_lt _ (by norm_num)
    simp [markDeviceIDFree, hb, Nat.shiftLeft_eq, one_mul, Nat.testBit_land, Nat.testBit_xor,
      Nat.testBit_two_pow, hm2, testBit_255 _ hj]
  · simp [markDeviceIDFree, hb]

theorem isDeviceIDFree_congr (s s' : DeviceSet) (h : s.deviceIDMap = s'.deviceIDMap) (id : Nat) :
    isDeviceIDFree s id = isDeviceIDFree s' id := by
  rw [isDeviceIDFree, isDeviceIDFree, h]

theorem incNextDeviceID_NextDeviceID (s : DeviceSet) :
    (incNextDeviceID s).NextDeviceID = (s.NextDeviceID + 1) % (maxDeviceID + 1) := by
  rw [incNextDeviceID, and_maxDeviceID_eq_mod]

theorem isDeviceIDFree_incNextDeviceID (s : DeviceSet) (id : Nat) :
    isDeviceIDFree (incNextDeviceID s) id = isDeviceIDFree s id := rfl

theorem scanPos_lt (start k : Nat) : scanPos start k < maxDeviceID + 1 :=
  Nat.mod_lt _ (by norm_num [maxDeviceID])

theorem scanPos_le (start k : Nat) : scanPos start k ≤ maxDeviceID :=
  Nat.lt_succ_iff.mp (scanPos_lt start k)

theorem scanPos_zero (start : Nat) (h : start < maxDeviceID + 1) : scanPos start 0 = start := by
  simp [scanPos, Nat.mod_eq_of_lt h]

theorem scanPos_shift (start k : Nat) :
    scanPos ((start + 1) % (maxDeviceID + 1)) k = scanPos start (k + 1) := by
  rw [scanPos, scanPos, Nat.mod_add_mod]
  ring_nf

theorem scanLoop_none_iff (n : Nat) :
    ∀ s : DeviceSet, s.NextDeviceID < maxDeviceID + 1 →
      ((scanLoop s n).2 = none ↔
        ∀ k, k < n → isDeviceIDFree s (scanPos s.NextDeviceID k) = false) := by
  induction n with
  | zero => intro s _; simp [scanLoop]
  | succ n ih =>
    intro s hs
    by_cases h : isDeviceIDFree s s.NextDeviceID = true
    · rw [scanLoop, if_pos h]
      simp only [Option.some_ne_none, false_iff]
      intro hall
      have h0 := hall 0 (Nat.succ_pos n)
      rw [scanPos_zero _ hs] at h0
      rw [h] at h0
      exact absurd h0 (by decide)
    · have h' : isDeviceIDFree s s.NextDeviceID = false := by
        cases hv : isDeviceIDFree s s.NextDeviceID
        · rfl
        · exact absurd hv h
      rw [scanLoop, if_neg (by rw [h']; exact Bool.false_ne_true)]
      have hinc : (incNextDeviceID s).NextDeviceID < maxDeviceID + 1 := by
        rw [incNextDeviceID_NextDeviceID]
        exact Nat.mod_lt _ (by norm_num [maxDeviceID])
      rw [ih (incNextDeviceID s) hinc]
      constructor
      · intro hall k hk
        match k with
        | 0 => rw [scanPos_zero _ hs]; exact h'
        | k + 1 =>
          have := hall k (by omega)
          rw [isDeviceIDFree_incNextDeviceID, incNextDeviceID_NextDeviceID,
            scanPos_shift] at this
          exact this
      · intro hall k hk
        rw [isDeviceIDFree_incNextDeviceID, incNextDeviceID_NextDeviceID, scanPos_shift]
        exact hall (k + 1) (by omega)

theorem scanLoop_none_state (n : Nat) :
    ∀ s : DeviceSet, (scanLoop s n).2 = none →
      (scanLoop s n).1 = { s with NextDeviceID := (scanLoop s n).1.NextDeviceID } := by
  induction n with
  | zero => intro s _; rfl
  | succ n ih =>
    intro s hnone
    by_cases h : isDeviceIDFree s s.NextDeviceID = true
    · rw [scanLoop, if_pos h] at hnone
      exact absurd hnone (Option.some_ne_none _)
    · have h' : ¬ isDeviceIDFree s s.NextDeviceID = true := h
      rw [scanLoop, if_neg h'] at hnone ⊢
      exact ih (incNextDeviceID s) hnone

theorem scanLoop_some (n : Nat) :
    ∀ (s t : DeviceSet) (id : Nat), s.NextDeviceID < maxDeviceID + 1 →
      scanLoop s n = (t, some id) →
      ∃ k, k < n ∧ id = scanPos s.NextDeviceID k ∧
        isDeviceIDFree s id = true ∧
        (∀ j, j < k → isDeviceIDFree s (scanPos s.NextDeviceID j) = false) ∧
        t = { markDeviceIDUsed s id with NextDeviceID := id } := by
  induction n with
  | zero => intro s t id _ h; exact absurd (congrArg Prod.snd h) (by simp [scanLoop])
  | succ n ih =>
    intro s t id hs h
    by_cases hf : isDeviceIDFree s s.NextDeviceID = true
    · rw [scanLoop, if_pos hf] at h
      have hid : id = s.NextDeviceID := by
        have := congrArg Prod.snd h
        simpa using this.symm
      have ht : t = markDeviceIDUsed s s.NextDeviceID := by
        have := congrArg Prod.fst h
        simpa using this.symm
      refine ⟨0, Nat.succ_pos n, ?_, ?_, ?_, ?_⟩
      · rw [scanPos_zero _ hs, hid]
      · rw [hid]; exact hf
      · intro j hj; omega
      · rw [ht, hid]
        rfl
    · rw [scanLoop, if_neg hf] at h
      have hinc : (incNextDeviceID s).NextDeviceID < maxDeviceID + 1 := by
        rw [incNextDeviceID_NextDeviceID]
        exact Nat.mod_lt _ (by norm_num [maxDeviceID])
      obtain ⟨k, hk, hidk, hfree, hbefore, ht⟩ := ih (incNextDeviceID s) t id hinc h
      rw [incNextDeviceID_NextDeviceID, scanPos_shift] at hidk
      refine ⟨k + 1, by omega, hidk, ?_, ?_, ?_⟩
      · rw [isDeviceIDFree_incNextDeviceID] at hfree
        exact hfree
      · intro j hj
        match j with
        | 0 =>
          rw [scanPos_zero _ hs]
          cases hv : isDeviceIDFree s s.NextDeviceID
          · rfl
          · exact absurd hv hf
        | j + 1 =>
          have := hbefore j (by omega)
          rw [isDeviceIDFree_incNextDeviceID, incNextDeviceID_NextDeviceID,
            scanPos_shift] at this
          exact this
      · rw [ht]
        rfl

theorem getNextFreeDeviceID_none_iff (s : DeviceSet) :
    (getNextFreeDeviceID s).2 = none ↔
      ∀ id, id ≤ maxDeviceID → isDeviceIDFree s id = false := by
  have hinc : (incNextDeviceID s).NextDeviceID < maxDeviceID + 1 := by
    rw [incNextDeviceID_NextDeviceID]
    exact Nat.mod_lt _ (by norm_num [maxDeviceID])
  rw [getNextFreeDeviceID, scanLoop_none_iff _ _ hinc]
  constructor
  · intro hall id hid
    set start := (incNextDeviceID s).NextDeviceID with hstart
    have hM : (0:Nat) < maxDeviceID + 1 := by norm_num [maxDeviceID]
    have key := hall ((id + (maxDeviceID + 1) - start) % (maxDeviceID + 1)) (Nat.mod_lt _ hM)
    have hpos : scanPos start ((id + (maxDeviceID + 1) - start) % (maxDeviceID + 1)) = id := by
      rw [scanPos, Nat.add_mod_mod]
      have h2 : start + (id + (maxDeviceID + 1) - start) = id + (maxDeviceID + 1) := by omega
      rw [h2, Nat.add_mod_right]
      exact Nat.mod_eq_of_lt (by omega)
    rw [hpos] at key
    exact key
  · intro hall k _
    exact hall _ (scanPos_le _ _)

theorem getNextFreeDeviceID_none_state (s : DeviceSet) (h : (getNextFreeDeviceID s).2 = none) :
    (getNextFreeDeviceID s).1 =
      { s with NextDeviceID := (getNextFreeDeviceID s).1.NextDeviceID } := by
  rw [getNextFreeDeviceID] at h ⊢
  have := scanLoop_none_state (maxDeviceID + 1) (incNextDeviceID s) h
  rw [this]
  rfl

/-- C2: the device-ID allocator scans forward from the rotating cursor with
wraparound; a successful `getNextFreeDeviceID` returns an ID that was free,
marks exactly that bit used, stays within the 24-bit range, and takes the
first free position in scan order from the incremented cursor; it returns
the exhaustion error precisely when every ID in `0..maxDeviceID` is marked
used; and after such a failure, freeing any single ID makes the next
allocation succeed. -/
theorem getNextFreeDeviceID_correct :
    (∀ s t id, getNextFreeDeviceID s = (t, some id) →
        isDeviceIDFree s id = true ∧ isDeviceIDFree t id = false ∧ id ≤ maxDeviceID ∧
        t.deviceIDMap = (markDeviceIDUsed s id).deviceIDMap ∧
        (∃ k, k ≤ maxDeviceID ∧ id = scanPos ((s.NextDeviceID + 1) % (maxDeviceID + 1)) k ∧
          ∀ j, j < k →
            isDeviceIDFree s (scanPos ((s.NextDeviceID + 1) % (maxDeviceID + 1)) j) = false)) ∧
    (∀ s, (getNextFreeDeviceID s).2 = none ↔
        ∀ id, id ≤ maxDeviceID → isDeviceIDFree s id = false) ∧
    (∀ s d, d ≤ maxDeviceID → (getNextFreeDeviceID s).2 = none →
        ∃ t id, getNextFreeDeviceID (markDeviceIDFree (getNextFreeDeviceID s).1 d) =
          (t, some id)) := by
  refine ⟨?_, getNextFreeDeviceID_none_iff, ?_⟩
  · intro s t id h
    have hinc : (incNextDeviceID s).NextDeviceID < maxDeviceID + 1 := by
      rw [incNextDeviceID_NextDeviceID]
      exact Nat.mod_lt _ (by norm_num [maxDeviceID])
    obtain ⟨k, hk, hidk, hfree, hbefore, ht⟩ :=
      scanLoop_some (maxDeviceID + 1) (incNextDeviceID s) t id hinc h
    rw [incNextDeviceID_NextDeviceID] at hidk hbefore
    rw [isDeviceIDFree_incNextDeviceID] at hfree
    refine ⟨hfree, ?_, ?_, ?_, ⟨k, by omega, hidk, ?_⟩⟩
    · rw [ht]
      have : isDeviceIDFree { markDeviceIDUsed (incNextDeviceID s) id with NextDeviceID := id }
          id = isDeviceIDFree (markDeviceIDUsed (incNextDeviceID s) id) id :=
        isDeviceIDFree_congr _ _ rfl id
      rw [this]
      have h2 : isDeviceIDFree (markDeviceIDUsed (incNextDeviceID s) id) id =
          isDeviceIDFree (markDeviceIDUsed s id) id :=
        isDeviceIDFree_congr _ _ rfl id
      rw [h2]
      exact isDeviceIDFree_markUsed_self s id
    · rw [hidk]
      exact scanPos_le _ _
    · rw [ht]
      rfl
    · intro j hj
      have := hbefore j hj
      rw [isDeviceIDFree_incNextDeviceID] at this
      exact this
  · intro s d _ hnone
    have hstate := getNextFreeDeviceID_none_state s hnone
    have hall := (getNextFreeDeviceID_none_iff s).mp hnone
    set u := markDeviceIDFree (getNextFreeDeviceID s).1 d with hu
    have hfree : isDeviceIDFree u d = true := isDeviceIDFree_markFree_self _ d
    have hne : ¬ (getNextFreeDeviceID u).2 = none := by
      intro hn
      have := (getNextFreeDeviceID_none_iff u).mp hn d (by assumption)
      rw [hfree] at this
      exact absurd this (by decide)
    obtain ⟨id, hid2⟩ : ∃ id, (getNextFreeDeviceID u).2 = some id := by
      cases ho : (getNextFreeDeviceID u).2 with
      | none => exact absurd ho hne
      | some id => exact ⟨id, rfl⟩
    refine ⟨(getNextFreeDeviceID u).1, id, ?_⟩
    rw [← hid2]

/-- Witness for C2: on the all-used bitmap the allocator fails, and freeing
device ID 7 makes the next allocation succeed. -/
theorem getNextFreeDeviceID_correct_witness :
    (getNextFreeDeviceID fullSet).2 = none ∧
    (∃ t id, getNextFreeDeviceID (markDeviceIDFree (getNextFreeDeviceID fullSet).1 7) =
      (t, some id)) := by
  have hall : ∀ id, id ≤ maxDeviceID → isDeviceIDFree fullSet id = false := by
    intro id _
    rw [isDeviceIDFree_eq]
    have hj : id % 8 < 8 := Nat.mod_lt _ (by norm_num)
    show (!(Nat.testBit 255 (id % 8))) = false
    rw [testBit_255 _ hj]
    rfl
  have h1 := (getNextFreeDeviceID_correct.2.1 fullSet).mpr hall
  exact ⟨h1, getNextFreeDeviceID_correct.2.2 fullSet 7 (by norm_num [maxDeviceID]) h1⟩

theorem processPendingTransaction_of_txnFile_none (o : ErrOracle) (s : DeviceSet)
    (hf : s.txnFile = none) :
    processPendingTransaction o s =
      ({ s with OpenTransactionID := s.TransactionID }, none) := by
  have hload : loadTransactionMetaData s =
      { s with OpenTransactionID := s.TransactionID } := by
    rw [loadTransactionMetaData, hf]
  rw [processPendingTransaction, hload,
    if_pos (rfl : ({ s with OpenTransactionID := s.TransactionID } :
      DeviceSet).TransactionID =
      ({ s with OpenTransactionID := s.TransactionID } : DeviceSet).OpenTransactionID)]

theorem rollbackTransaction_noErr (s : DeviceSet) :
    rollbackTransaction noErr s =
      ({ s with
          poolDevs := fun j => if j = s.DeviceID then false else s.poolDevs j,
          metaFiles := fun n =>
            if n = metadataFileName s.DeviceIDHash then none else s.metaFiles n,
          deviceIDMap := fun idx =>
            if idx = s.DeviceID / 8 then
              s.deviceIDMap idx &&& (1 <<< (s.DeviceID % 8) ^^^ 255)
            else s.deviceIDMap idx,
          txnFile := none }, none) := rfl

/-- C1: startup recovery of an abandoned transaction is complete and
idempotent: if the transaction log records `OpenTransactionID =
TransactionID + 1` for hash `h` and device ID `d`, then after
`processPendingTransaction` the bitmap bit of `d` is free, no metadata
file exists for `h`, the transaction record is gone,
`OpenTransactionID = TransactionID`, and running the recovery a second
time returns the very same state. -/
theorem processPendingTransaction_recovers (s : DeviceSet) (h : String) (d : Nat)
    (htxn : s.txnFile = some ⟨s.TransactionID + 1, h, d⟩) :
    (processPendingTransaction noErr s).2 = none ∧
    isDeviceIDFree (processPendingTransaction noErr s).1 d = true ∧
    (processPendingTransaction noErr s).1.metaFiles (metadataFileName h) = none ∧
    (processPendingTransaction noErr s).1.txnFile = none ∧
    (processPendingTransaction noErr s).1.OpenTransactionID =
      (processPendingTransaction noErr s).1.TransactionID ∧
    (processPendingTransaction noErr s).1.TransactionID = s.TransactionID ∧
    processPendingTransaction noErr (processPendingTransaction noErr s).1 =
      ((processPendingTransaction noErr s).1, none) := by
  have hs1 : loadTransactionMetaData s =
      { s with OpenTransactionID := s.TransactionID + 1,
               DeviceIDHash := h, DeviceID := d } := by
    rw [loadTransactionMetaData, htxn]
  have hcond1 : ¬ ((loadTransactionMetaData s).TransactionID =
      (loadTransactionMetaData s).OpenTransactionID) := by
    rw [hs1]
    show ¬ s.TransactionID = s.TransactionID + 1
    omega
  have hcond2 : ¬ ((loadTransactionMetaData s).OpenTransactionID <
      (loadTransactionMetaData s).TransactionID) := by
    rw [hs1]
    show ¬ s.TransactionID + 1 < s.TransactionID
    omega
  have hmain : processPendingTransaction noErr s =
      ({ s with
          OpenTransactionID := s.TransactionID,
          DeviceIDHash := h, DeviceID := d,
          poolDevs := fun j => if j = d then false else s.poolDevs j,
          metaFiles := fun n => if n = metadataFileName h then none else s.metaFiles n,
          deviceIDMap := fun idx =>
            if idx = d / 8 then s.deviceIDMap idx &&& (1 <<< (d % 8) ^^^ 255)
            else s.deviceIDMap idx,
          txnFile := none }, none) := by
    rw [processPendingTransaction, if_neg hcond1, if_neg hcond2,
      rollbackTransaction_noErr, hs1]
  rw [hmain]
  refine ⟨rfl, ?_, ?_, rfl, rfl, rfl, ?_⟩
  · exact isDeviceIDFree_markFree_self s d
  · show (if metadataFileName h = metadataFileName h then none
      else s.metaFiles (metadataFileName h)) = none
    rw [if_pos rfl]
  · rw [processPendingTransaction_of_txnFile_none noErr _ rfl]

/-- Witness for C1: the crashed state with transaction log
`OpenTransactionID = 6 = TransactionID + 1`, hash `"L1"`, device ID 42 is
fully recovered, and the recovery is idempotent. -/
theorem processPendingTransaction_recovers_witness :
    (processPendingTransaction noErr crashedSet).2 = none ∧
    isDeviceIDFree (processPendingTransaction noErr crashedSet).1 42 = true ∧
    (processPendingTransaction noErr crashedSet).1.metaFiles (metadataFileName "L1") = none ∧
    (processPendingTransaction noErr crashedSet).1.txnFile = none ∧
    (processPendingTransaction noErr crashedSet).1.OpenTransactionID =
      (processPendingTransaction noErr crashedSet).1.TransactionID ∧
    (processPendingTransaction noErr crashedSet).1.TransactionID =
      crashedSet.TransactionID ∧
    processPendingTransaction noErr (processPendingTransaction noErr crashedSet).1 =
      ((processPendingTransaction noErr crashedSet).1, none) :=
  processPendingTransaction_recovers crashedSet "L1" 42 rfl

/-- C10: `rollbackTransaction` returns nil no matter which of the driver
delete, metadata removal and transaction-record removal fail; its bitmap
is the original one when metadata removal fails and has the device's bit
freed when it succeeds; consequently the rollback-failure error branch of
`processPendingTransaction` is unreachable and it, too, always returns
nil. -/
theorem rollbackTransaction_total :
    (∀ (o : ErrOracle) (s : DeviceSet), (rollbackTransaction o s).2 = none) ∧
    (∀ (o : ErrOracle) (s : DeviceSet),
        (rollbackTransaction o s).1.deviceIDMap =
          if o.metaRemoveFails then s.deviceIDMap
          else (markDeviceIDFree s s.DeviceID).deviceIDMap) ∧
    (∀ (o : ErrOracle) (s : DeviceSet), (processPendingTransaction o s).2 = none) := by
  have h1 : ∀ (o : ErrOracle) (s : DeviceSet), (rollbackTransaction o s).2 = none := by
    intro o s
    rcases o with ⟨w, mr, tr, dd, st⟩
    cases mr <;> cases tr <;> cases dd <;> rfl
  refine ⟨h1, ?_, ?_⟩
  · intro o s
    rcases o with ⟨w, mr, tr, dd, st⟩
    cases mr <;> cases tr <;> cases dd <;> rfl
  · intro o s
    rw [processPendingTransaction]
    split
    · rfl
    · split
      · rfl
      · have h2 := h1 o (loadTransactionMetaData s)
        split
        · rename_i s2 e heq
          rw [heq] at h2
          simp at h2
        · rfl

theorem loadTransactionMetaData_TransactionID (s : DeviceSet) :
    (loadTransactionMetaData s).TransactionID = s.TransactionID := by
  rw [loadTransactionMetaData]
  rcases s.txnFile with _ | t <;> rfl

theorem rollbackTransaction_TransactionID (o : ErrOracle) (s : DeviceSet) :
    (rollbackTransaction o s).1.TransactionID = s.TransactionID := by
  rcases o with ⟨w, mr, tr, dd, st⟩
  cases mr <;> cases tr <;> cases dd <;> rfl

theorem processPendingTransaction_TransactionID (o : ErrOracle) (s : DeviceSet) :
    (processPendingTransaction o s).1.TransactionID = s.TransactionID := by
  rw [processPendingTransaction]
  split
  · exact loadTransactionMetaData_TransactionID s
  · split
    · exact loadTransactionMetaData_TransactionID s
    · have hr := rollbackTransaction_TransactionID o (loadTransactionMetaData s)
      rw [loadTransactionMetaData_TransactionID s] at hr
      split
      · rename_i s2 e heq
        rw [heq] at hr
        exact hr
      · rename_i s2 heq
        rw [heq] at hr
        exact hr

theorem refreshTransaction_preserves (o : ErrOracle) (s : DeviceSet) (id : Nat) :
    (refreshTransaction o s id).1.TransactionID = s.TransactionID ∧
    (refreshTransaction o s id).1.OpenTransactionID = s.OpenTransactionID := by
  rcases o with ⟨w, mr, tr, dd, st⟩
  cases w <;> exact ⟨rfl, rfl⟩

theorem runRefreshes_preserves (l : List (Nat × Bool)) :
    ∀ s : DeviceSet,
      (runRefreshes s l).TransactionID = s.TransactionID ∧
      (runRefreshes s l).OpenTransactionID = s.OpenTransactionID := by
  induction l with
  | nil => intro s; exact ⟨rfl, rfl⟩
  | cons p rest ih =>
    intro s
    rcases p with ⟨id, b⟩
    have h1 := ih (refreshTransaction (writeOracle b) s id).1
    have h2 := refreshTransaction_preserves (writeOracle b) s id
    constructor
    · show (runRefreshes (refreshTransaction (writeOracle b) s id).1 rest).TransactionID =
        s.TransactionID
      rw [h1.1, h2.1]
    · show (runRefreshes (refreshTransaction (writeOracle b) s id).1 rest).OpenTransactionID =
        s.OpenTransactionID
      rw [h1.2, h2.2]

/-- C5: `TransactionID` only ever increases.  Every single transaction-log
operation (a bracketed open/refresh/close transaction, in any of its
failure modes, or a startup recovery) leaves `TransactionID` no smaller;
hence every sequence of them does; a bracketed transaction advances
`TransactionID` by exactly one precisely when neither its open nor its
close fails, in which case the new value is the `OpenTransactionID` that
was allocated as `TransactionID + 1` at `openTransaction` time; and a
startup recovery never changes `TransactionID` at all. -/
theorem transactionID_monotone :
    (∀ (s : DeviceSet) (op : PoolOp), s.TransactionID ≤ (runPoolOp s op).TransactionID) ∧
    (∀ (s : DeviceSet) (ops : List PoolOp),
        s.TransactionID ≤ (runPoolOps s ops).TransactionID) ∧
    (∀ (s : DeviceSet) (t : TxnOp),
        (runPoolOp s (.txnop t)).TransactionID =
          if t.openFails || t.closeFails then s.TransactionID else s.TransactionID + 1) ∧
    (∀ (s : DeviceSet) (t : TxnOp), t.openFails = false → t.closeFails = false →
        (runPoolOp s (.txnop t)).TransactionID =
          (openTransaction (writeOracle t.openFails) s t.hash t.id).1.OpenTransactionID ∧
        (openTransaction (writeOracle t.openFails) s t.hash t.id).1.OpenTransactionID =
          s.TransactionID + 1) ∧
    (∀ (s : DeviceSet) (o : ErrOracle),
        (runPoolOp s (.recovery o)).TransactionID = s.TransactionID) := by
  have htxn : ∀ (s : DeviceSet) (t : TxnOp),
      (runPoolOp s (.txnop t)).TransactionID =
        if t.openFails || t.closeFails then s.TransactionID else s.TransactionID + 1 := by
    intro s t
    rcases t with ⟨hash, id, refreshes, ob, cb⟩
    cases ob
    · have hpre := runRefreshes_preserves refreshes
        (openTransaction (writeOracle false) s hash id).1
      cases cb
      · show (updatePoolTransactionID (setTidOracle false)
            (runRefreshes (openTransaction (writeOracle false) s hash id).1 refreshes)).1.TransactionID = _
        show (runRefreshes (openTransaction (writeOracle false) s hash id).1
            refreshes).OpenTransactionID = _
        rw [hpre.2]
        rfl
      · show (runRefreshes (openTransaction (writeOracle false) s hash id).1
            refreshes).TransactionID = _
        rw [hpre.1]
        rfl
    · rfl
  have hrec : ∀ (s : DeviceSet) (o : ErrOracle),
      (runPoolOp s (.recovery o)).TransactionID = s.TransactionID := by
    intro s o
    exact processPendingTransaction_TransactionID o s
  have hone : ∀ (s : DeviceSet) (op : PoolOp),
      s.TransactionID ≤ (runPoolOp s op).TransactionID := by
    intro s op
    rcases op with t | o
    · rw [htxn s t]
      split <;> omega
    · rw [hrec s o]
  refine ⟨hone, ?_, htxn, ?_, hrec⟩
  · intro s ops
    induction ops generalizing s with
    | nil => exact Nat.le_refl _
    | cons op rest ih =>
      calc s.TransactionID ≤ (runPoolOp s op).TransactionID := hone s op
        _ ≤ (runPoolOps (runPoolOp s op) rest).TransactionID := ih _
  · intro s t hob hcb
    have h1 := htxn s t
    rw [hob, hcb] at h1
    simp only [Bool.or_false, if_false] at h1
    refine ⟨?_, ?_⟩
    · rw [h1, hob]
      rfl
    · rw [hob]
      rfl

/-- Witness for C5: a concrete successful transaction advances
`TransactionID` from 0 to 1, matching the allocated `OpenTransactionID`. -/
theorem transactionID_monotone_witness :
    (runPoolOp fullSet (.txnop ⟨"h", 5, [], false, false⟩)).TransactionID =
      (openTransaction (writeOracle false) fullSet "h" 5).1.OpenTransactionID ∧
    (openTransaction (writeOracle false) fullSet "h" 5).1.OpenTransactionID =
      fullSet.TransactionID + 1 :=
  transactionID_monotone.2.2.2.1 fullSet ⟨"h", 5, [], false, false⟩ rfl rfl

theorem loadMetadata_mountCount (s : DeviceSet) (hash : String) (info : DevInfo)
    (h : loadMetadata s hash = some info) : info.mountCount = 0 := by
  rw [loadMetadata] at h
  rcases hf : s.metaFiles (metadataFileName hash) with _ | fd
  · rw [hf] at h
    cases h
  · rcases fd with r | _
    · rw [hf] at h
      cases h
      rfl
    · rw [hf] at h
      cases h

theorem lookupDevice_cases (s : DeviceSet) (hash : String) :
    (∃ i, s.Devices hash = some i ∧ lookupDevice s hash = (s, some i)) ∨
    (s.Devices hash = none ∧ loadMetadata s hash = none ∧
      lookupDevice s hash = (s, none)) ∨
    (∃ info, s.Devices hash = none ∧ loadMetadata s hash = some info ∧
      lookupDevice s hash = (updateDev s hash info, some info)) := by
  rcases hd : s.Devices hash with _ | i
  · rcases hm : loadMetadata s hash with _ | info
    · exact .inr (.inl ⟨rfl, rfl, by rw [lookupDevice, hd, hm]⟩)
    · exact .inr (.inr ⟨info, rfl, rfl, by rw [lookupDevice, hd, hm]⟩)
  · exact .inl ⟨i, rfl, by rw [lookupDevice, hd]⟩

theorem updateDev_Devices (s : DeviceSet) (hash : String) (info : DevInfo) (k : String) :
    (updateDev s hash info).Devices k =
      if k = hash then some info else s.Devices k := rfl

/-- C3: mount reference counting.  For a device with count `n ≥ 1` mounted
at `p`: `MountDevice` at `p` only increments the count (no mount syscall);
`MountDevice` at `p2 ≠ p` fails with the mount-path-conflict error and
changes nothing; `UnmountDevice` decrements the count and performs the
real unmount and the deactivation call exactly when the count reaches 0;
`UnmountDevice` on count 0 is an error leaving the state unchanged; and
both operations preserve non-negativity of every `mountCount`. -/
theorem mount_refcount :
    (∀ (s : DeviceSet) (hash p l : String) (info : DevInfo),
        s.Devices hash = some info → 1 ≤ info.mountCount → info.mountPath = p →
        MountDevice s hash p l =
          (updateDev s hash { info with mountCount := info.mountCount + 1 }, none) ∧
        (MountDevice s hash p l).1.mountEvents = s.mountEvents) ∧
    (∀ (s : DeviceSet) (hash p p2 l : String) (info : DevInfo),
        s.Devices hash = some info → 1 ≤ info.mountCount → info.mountPath = p →
        p2 ≠ p →
        MountDevice s hash p2 l =
          (s, some ("Trying to mount devmapper device in multiple places (" ++
            info.mountPath ++ ", " ++ p2 ++ ")"))) ∧
    (∀ (s : DeviceSet) (hash : String) (info : DevInfo),
        s.Devices hash = some info → 1 ≤ info.mountCount →
        (UnmountDevice s hash).2 = none ∧
        (UnmountDevice s hash).1.Devices hash =
          some { info with
                 mountCount := info.mountCount - 1,
                 mountPath := if info.mountCount = 1 then "" else info.mountPath } ∧
        (UnmountDevice s hash).1.unmountEvents =
          (if info.mountCount = 1 then s.unmountEvents + 1 else s.unmountEvents) ∧
        (UnmountDevice s hash).1.deactivateCalls =
          (if info.mountCount = 1 then s.deactivateCalls + 1 else s.deactivateCalls)) ∧
    (∀ (s : DeviceSet) (hash : String) (info : DevInfo),
        s.Devices hash = some info → info.mountCount = 0 →
        UnmountDevice s hash =
          (s, some ("UnmountDevice: device not-mounted id " ++ hash))) ∧
    (∀ (s : DeviceSet) (hash p l : String),
        (∀ k i, s.Devices k = some i → 0 ≤ i.mountCount) →
        (∀ k i, (MountDevice s hash p l).1.Devices k = some i → 0 ≤ i.mountCount) ∧
        (∀ k i, (UnmountDevice s hash).1.Devices k = some i → 0 ≤ i.mountCount)) := by
  refine ⟨?_, ?_, ?_, ?_, ?_⟩
  · intro s hash p l info hdev hn hpath
    have hlook : lookupDevice s hash = (s, some info) := by rw [lookupDevice, hdev]
    have hmain : MountDevice s hash p l =
        (updateDev s hash { info with mountCount := info.mountCount + 1 }, none) := by
      simp only [MountDevice, hlook]
      rw [if_pos (by omega : (0:Int) < info.mountCount),
        if_neg (show ¬ p ≠ info.mountPath from fun hne => hne hpath.symm)]
    refine ⟨hmain, ?_⟩
    rw [hmain]
    rfl
  · intro s hash p p2 l info hdev hn hpath hne
    have hlook : lookupDevice s hash = (s, some info) := by rw [lookupDevice, hdev]
    simp only [MountDevice, hlook]
    rw [if_pos (by omega : (0:Int) < info.mountCount),
      if_pos (show p2 ≠ info.mountPath from fun he => hne (he.trans hpath))]
  · intro s hash info hdev hn
    have hlook : lookupDevice s hash = (s, some info) := by rw [lookupDevice, hdev]
    by_cases h1 : info.mountCount = 1
    · have hmain : UnmountDevice s hash =
          (updateDev (deactivateDevice { s with unmountEvents := s.unmountEvents + 1 })
            hash { info with mountCount := info.mountCount - 1, mountPath := "" }, none) := by
        simp only [UnmountDevice, hlook]
        rw [if_neg (by omega : ¬ info.mountCount = 0),
          if_neg (by omega : ¬ (0:Int) < info.mountCount - 1)]
      rw [hmain]
      refine ⟨rfl, ?_, by rw [if_pos h1]; rfl, by rw [if_pos h1]; rfl⟩
      rw [updateDev_Devices, if_pos rfl, if_pos h1]
    · have hmain : UnmountDevice s hash =
          (updateDev s hash { info with mountCount := info.mountCount - 1 }, none) := by
        simp only [UnmountDevice, hlook]
        rw [if_neg (by omega : ¬ info.mountCount = 0),
          if_pos (by omega : (0:Int) < info.mountCount - 1)]
      rw [hmain]
      refine ⟨rfl, ?_, by rw [if_neg h1]; rfl, by rw [if_neg h1]; rfl⟩
      rw [updateDev_Devices, if_pos rfl, if_neg h1]
  · intro s hash info hdev hzero
    have hlook : lookupDevice s hash = (s, some info) := by rw [lookupDevice, hdev]
    simp only [UnmountDevice, hlook]
    rw [if_pos hzero]
  · intro s hash p l hinv
    have hupd : ∀ (s1 : DeviceSet) (j : DevInfo),
        (∀ k i, s1.Devices k = some i → 0 ≤ i.mountCount) → 0 ≤ j.mountCount →
        ∀ k i, (updateDev s1 hash j).Devices k = some i → 0 ≤ i.mountCount := by
      intro s1 j hinv1 hj k i hk
      rw [updateDev_Devices] at hk
      by_cases hkh : k = hash
      · rw [if_pos hkh] at hk
        cases hk
        exact hj
      · rw [if_neg hkh] at hk
        exact hinv1 k i hk
    rcases lookupDevice_cases s hash with ⟨i, hd, hl⟩ | ⟨hd, hm, hl⟩ | ⟨info, hd, hm, hl⟩
    · have hi := hinv hash i hd
      constructor
      · simp only [MountDevice, hl]
        by_cases hc : (0:Int) < i.mountCount
        · rw [if_pos hc]
          by_cases hp : p ≠ i.mountPath
          · rw [if_pos hp]
            exact hinv
          · rw [if_neg hp]
            exact hupd s { i with mountCount := i.mountCount + 1 } hinv
              (by show (0:Int) ≤ i.mountCount + 1; omega)
        · rw [if_neg hc]
          exact hupd { s with mountEvents := s.mountEvents + 1 }
            { i with mountCount := 1, mountPath := p }
            (fun k j hk => hinv k j hk) (by show (0:Int) ≤ 1; omega)
      · simp only [UnmountDevice, hl]
        by_cases hc : i.mountCount = 0
        · rw [if_pos hc]
          exact hinv
        · rw [if_neg hc]
          by_cases hc2 : (0:Int) < i.mountCount - 1
          · rw [if_pos hc2]
            exact hupd s { i with mountCount := i.mountCount - 1 } hinv
              (by show (0:Int) ≤ i.mountCount - 1; omega)
          · rw [if_neg hc2]
            exact hupd (deactivateDevice { s with unmountEvents := s.unmountEvents + 1 })
              { i with mountCount := i.mountCount - 1, mountPath := "" }
              (fun k j hk => hinv k j hk) (by show (0:Int) ≤ i.mountCount - 1; omega)
    · constructor
      · simp only [MountDevice, hl]
        exact hinv
      · simp only [UnmountDevice, hl]
        exact hinv
    · have h0 : info.mountCount = 0 := loadMetadata_mountCount s hash info hm
      have hinv1 : ∀ k i, (updateDev s hash info).Devices k = some i → 0 ≤ i.mountCount :=
        hupd s info hinv (by omega)
      constructor
      · simp only [MountDevice, hl]
        rw [if_neg (by omega : ¬ (0:Int) < info.mountCount)]
        exact hupd
          { updateDev s hash info with
            mountEvents := (updateDev s hash info).mountEvents + 1 }
          { info with mountCount := 1, mountPath := p }
          (fun k j hk => hinv1 k j hk) (by show (0:Int) ≤ 1; omega)
      · simp only [UnmountDevice, hl]
        rw [if_pos h0]
        exact hinv1

/-- Witness for C3: on the state with hash `"m"` mounted twice at
`/mnt/a`, remounting at the same path bumps the count to 3 with no mount
syscall, and mounting at `/mnt/b` fails with the path-conflict error. -/
theorem mount_refcount_witness :
    MountDevice mountedSet "m" "/mnt/a" "" =
      (updateDev mountedSet "m"
        { Hash := "m", DeviceID := 9, Size := 2048, TransactionID := 1,
          Initialized := false, mountCount := 2 + 1, mountPath := "/mnt/a" }, none) ∧
    MountDevice mountedSet "m" "/mnt/b" "" =
      (mountedSet, some ("Trying to mount devmapper device in multiple places (" ++
        "/mnt/a" ++ ", " ++ "/mnt/b" ++ ")")) := by
  have hdev : mountedSet.Devices "m" =
      some { Hash := "m", DeviceID := 9, Size := 2048, TransactionID := 1,
             Initialized := false, mountCount := 2, mountPath := "/mnt/a" } := rfl
  have ha := (mount_refcount.1 mountedSet "m" "/mnt/a" ""
    { Hash := "m", DeviceID := 9, Size := 2048, TransactionID := 1,
      Initialized := false, mountCount := 2, mountPath := "/mnt/a" }
    hdev (by decide) rfl).1
  have hb := mount_refcount.2.1 mountedSet "m" "/mnt/a" "/mnt/b" ""
    { Hash := "m", DeviceID := 9, Size := 2048, TransactionID := 1,
      Initialized := false, mountCount := 2, mountPath := "/mnt/a" }
    hdev (by decide) rfl (by decide)
  exact ⟨ha, hb⟩

/-- Counterexample for C4: in `registerDevice`, the intermediate state
right after the map insert has the entry visible in the device index while
its metadata file does not exist yet; and in `unregisterDevice`, the
intermediate state right after the map delete has the entry already gone
from the index while its metadata file still exists.  Both orderings are
the reverse of the claimed ones. -/
theorem register_order_counterexample :
    (((registerDeviceStates noErr fullSet 42 "h" 1024 1).getD 1 fullSet).Devices
      "h").isSome = true ∧
    ((registerDeviceStates noErr fullSet 42 "h" 1024 1).getD 1 fullSet).metaFiles
      (metadataFileName "h") = none ∧
    ((unregisterDeviceStates noErr regdSet 42 "h").getD 1 regdSet).Devices "h" = none ∧
    ((unregisterDeviceStates noErr regdSet 42 "h").getD 1 regdSet).metaFiles
      (metadataFileName "h") = some (.record ⟨42, 1024, 1, false⟩) :=
  ⟨rfl, rfl, rfl, rfl⟩

/-- C4 (amended): the orderings are the reverse of the claimed ones.
During registration the entry is inserted into the index before the
metadata file is written (and removed again if the write fails), so the
metadata file never exists without an index entry; a successful
registration ends with both present, a failed write ends with the entry
gone and the directory unchanged.  During deletion the entry is dropped
from the index first and the file unlinked second, so an index entry never
exists without its metadata file. -/
theorem register_order_amended :
    (∀ (o : ErrOracle) (s : DeviceSet) (id : Nat) (hash : String) (size tid : Nat),
        s.metaFiles (metadataFileName hash) = none →
        ∀ st ∈ registerDeviceStates o s id hash size tid,
          st.metaFiles (metadataFileName hash) ≠ none → (st.Devices hash).isSome = true) ∧
    (∀ (o : ErrOracle) (s : DeviceSet) (id : Nat) (hash : String) (size tid : Nat),
        o.writeFails = false →
        ((registerDevice o s id hash size tid).1.Devices hash).isSome = true ∧
        (registerDevice o s id hash size tid).1.metaFiles (metadataFileName hash) ≠ none ∧
        (registerDevice o s id hash size tid).2 = none) ∧
    (∀ (o : ErrOracle) (s : DeviceSet) (id : Nat) (hash : String) (size tid : Nat),
        o.writeFails = true →
        (registerDevice o s id hash size tid).1.Devices hash = none ∧
        (registerDevice o s id hash size tid).1.metaFiles = s.metaFiles) ∧
    (∀ (o : ErrOracle) (s : DeviceSet) (id : Nat) (hash : String),
        ((s.Devices hash).isSome = true → s.metaFiles (metadataFileName hash) ≠ none) →
        ∀ st ∈ unregisterDeviceStates o s id hash,
          (st.Devices hash).isSome = true →
            st.metaFiles (metadataFileName hash) ≠ none) := by
  have hreg2 : ∀ (o : ErrOracle) (s : DeviceSet) (id : Nat) (hash : String) (size tid : Nat),
      o.writeFails = false →
      ((registerDevice o s id hash size tid).1.Devices hash).isSome = true ∧
      (registerDevice o s id hash size tid).1.metaFiles (metadataFileName hash) ≠ none ∧
      (registerDevice o s id hash size tid).2 = none := by
    intro o s id hash size tid hw
    rcases o with ⟨w, mr, tr, dd, st⟩
    cases w
    · refine ⟨?_, ?_, rfl⟩
      · show (if hash = hash then some (⟨hash, id, size, tid, false, 0, ""⟩ : DevInfo)
          else s.Devices hash).isSome = true
        rw [if_pos rfl]
        rfl
      · show (if metadataFileName hash = metadataFileName hash then
            some (FileData.record ⟨id, size, tid, false⟩)
          else s.metaFiles (metadataFileName hash)) ≠ none
        rw [if_pos rfl]
        simp
    · cases hw
  refine ⟨?_, hreg2, ?_, ?_⟩
  · intro o s id hash size tid hfile st hst hne
    have hmem : st = s ∨ st = updateDev s hash ⟨hash, id, size, tid, false, 0, ""⟩ ∨
        st = (registerDevice o s id hash size tid).1 := by
      simpa [registerDeviceStates] using hst
    rcases hmem with h | h | h
    · rw [h] at hne
      exact absurd hfile hne
    · rw [h]
      show (if hash = hash then some (⟨hash, id, size, tid, false, 0, ""⟩ : DevInfo)
        else s.Devices hash).isSome = true
      rw [if_pos rfl]
      rfl
    · rcases o with ⟨w, mr, tr, dd, sto⟩
      cases w
      · rw [h]
        exact (hreg2 ⟨false, mr, tr, dd, sto⟩ s id hash size tid rfl).1
      · rw [h] at hne
        exact absurd hfile hne
  · intro o s id hash size tid hw
    rcases o with ⟨w, mr, tr, dd, sto⟩
    cases w
    · cases hw
    · refine ⟨?_, rfl⟩
      show (if hash = hash then none else
        (updateDev s hash ⟨hash, id, size, tid, false, 0, ""⟩).Devices hash) = none
      rw [if_pos rfl]
  · intro o s id hash hinv st hst hsome
    have hgone : ∀ t : DeviceSet,
        t.Devices hash = none → (t.Devices hash).isSome = true → False := by
      intro t ht hs
      rw [ht] at hs
      cases hs
    have hmem : st = s ∨
        st = { s with Devices := fun k => if k = hash then none else s.Devices k } ∨
        st = (unregisterDevice o s id hash).1 := by
      simpa [unregisterDeviceStates] using hst
    rcases hmem with h | h | h
    · rw [h] at hsome ⊢
      exact hinv hsome
    · rw [h] at hsome
      exact absurd hsome (by
        show ¬ (if hash = hash then none else s.Devices hash).isSome = true
        rw [if_pos rfl]
        simp)
    · rcases o with ⟨w, mr, tr, dd, sto⟩
      cases mr
      · rw [h] at hsome
        exact absurd hsome (by
          show ¬ (if hash = hash then none else s.Devices hash).isSome = true
          rw [if_pos rfl]
          simp)
      · rw [h] at hsome
        exact absurd hsome (by
          show ¬ (if hash = hash then none else s.Devices hash).isSome = true
          rw [if_pos rfl]
          simp)

/-- Witness for the amended C4: a successful registration of hash `"h"`
ends with the index entry present, the metadata file present, and no
error. -/
theorem register_order_amended_witness :
    ((registerDevice noErr fullSet 42 "h" 1024 1).1.Devices "h").isSome = true ∧
    (registerDevice noErr fullSet 42 "h" 1024 1).1.metaFiles (metadataFileName "h") ≠ none ∧
    (registerDevice noErr fullSet 42 "h" 1024 1).2 = none :=
  register_order_amended.2.1 noErr fullSet 42 "h" 1024 1 rfl

/-- C7: `ResizePool` never shrinks the pool: a request strictly smaller
than the current backing data file size fails with the cannot-shrink error
and returns the state completely untouched (backing file size, loopback
capacity and pool capacity included); after growing to `sizeA`, a request
for a smaller `sizeB` fails the same way and leaves the capacity at
`sizeA`. -/
theorem resizePool_no_shrink :
    (∀ (s : DeviceSet) (size : Int), size < s.dataFileSize →
        ResizePool s size = (s, some "Can't shrink file")) ∧
    (∀ (s : DeviceSet) (sizeA sizeB : Int), s.dataFileSize ≤ sizeA → sizeB < sizeA →
        (ResizePool s sizeA).2 = none ∧
        (ResizePool s sizeA).1.dataFileSize = sizeA ∧
        (ResizePool s sizeA).1.dataLoopCapacity = sizeA ∧
        (ResizePool s sizeA).1.poolCapacity = sizeA ∧
        ResizePool (ResizePool s sizeA).1 sizeB =
          ((ResizePool s sizeA).1, some "Can't shrink file")) := by
  have h1 : ∀ (s : DeviceSet) (size : Int), size < s.dataFileSize →
      ResizePool s size = (s, some "Can't shrink file") := by
    intro s size h
    rw [ResizePool, if_pos h]
  refine ⟨h1, ?_⟩
  intro s sizeA sizeB hA hB
  have hgrow : ResizePool s sizeA =
      ({ s with
          dataFileSize := sizeA,
          dataLoopCapacity := sizeA,
          poolCapacity := sizeA,
          poolSuspended := false }, none) := by
    rw [ResizePool, if_neg (by omega : ¬ s.dataFileSize > sizeA)]
  rw [hgrow]
  exact ⟨rfl, rfl, rfl, rfl, h1 _ sizeB hB⟩

/-- Witness for C7: growing the zero-sized pool to 5 succeeds and a
subsequent request for 3 fails with the cannot-shrink error, leaving the
capacity at 5. -/
theorem resizePool_no_shrink_witness :
    (ResizePool fullSet 5).2 = none ∧
    (ResizePool fullSet 5).1.dataFileSize = 5 ∧
    (ResizePool fullSet 5).1.dataLoopCapacity = 5 ∧
    (ResizePool fullSet 5).1.poolCapacity = 5 ∧
    ResizePool (ResizePool fullSet 5).1 3 =
      ((ResizePool fullSet 5).1, some "Can't shrink file") :=
  resizePool_no_shrink.2 fullSet 5 3 (by decide) (by decide)

/-- Counterexample for C8: a single metadata file that fails to parse
makes the startup walk — and hence `constructDeviceIDMap` — return an
error instead of being ignored. -/
theorem walk_junk_counterexample :
    (constructDeviceIDMap fullSet [("x", FileData.junk)]).2 =
      some "Error loading device metadata file x" := rfl

/-- C8 (amended): the walk marks each parsed in-range device ID used and
ignores (logs without failing) parsed files whose device ID exceeds the
24-bit maximum, but a non-skipped file that fails to parse aborts the walk
with an error; when every entry parses, the walk returns no error. -/
theorem walk_amended :
    (∀ (s : DeviceSet) (name : String) (r : DevRecord),
        strEnds name ".migrated" = false → strStarts name "." = false →
        name ≠ deviceSetMetaFile → r.DeviceID ≤ maxDeviceID →
        deviceFileWalkFunction s name (.record r) =
          (markDeviceIDUsed s r.DeviceID, none)) ∧
    (∀ (s : DeviceSet) (name : String) (r : DevRecord),
        strEnds name ".migrated" = false → strStarts name "." = false →
        name ≠ deviceSetMetaFile → maxDeviceID < r.DeviceID →
        deviceFileWalkFunction s name (.record r) = (s, none)) ∧
    (∀ (s : DeviceSet) (name : String),
        strEnds name ".migrated" = false → strStarts name "." = false →
        name ≠ deviceSetMetaFile →
        deviceFileWalkFunction s name .junk =
          (s, some ("Error loading device metadata file " ++
            (if name = "base" then "" else name)))) ∧
    (∀ (entries : List (String × FileData)) (s : DeviceSet),
        (∀ p ∈ entries, p.2 ≠ FileData.junk) →
        (constructDeviceIDMap s entries).2 = none) := by
  refine ⟨?_, ?_, ?_, ?_⟩
  · intro s name r h1 h2 h3 h4
    simp only [deviceFileWalkFunction]
    rw [if_neg (by simp [h1]), if_neg (by simp [h2]), if_neg (by simp [h3]),
      if_neg (by omega : ¬ r.DeviceID > maxDeviceID)]
  · intro s name r h1 h2 h3 h4
    simp only [deviceFileWalkFunction]
    rw [if_neg (by simp [h1]), if_neg (by simp [h2]), if_neg (by simp [h3]),
      if_pos (by omega : r.DeviceID > maxDeviceID)]
  · intro s name h1 h2 h3
    simp only [deviceFileWalkFunction]
    rw [if_neg (by simp [h1]), if_neg (by simp [h2]), if_neg (by simp [h3])]
  · intro entries
    induction entries with
    | nil => intro s _; rfl
    | cons p rest ih =>
      intro s hp
      rcases p with ⟨name, content⟩
      rcases content with r | _
      · have hno : (deviceFileWalkFunction s name (.record r)).2 = none := by
          simp only [deviceFileWalkFunction]
          split
          · rfl
          · split
            · rfl
            · split
              · rfl
              · split <;> rfl
        rcases hw : deviceFileWalkFunction s name (.record r) with ⟨s1, e⟩
        rw [hw] at hno
        cases e
        · simp only [constructDeviceIDMap, hw]
          exact ih s1 (fun q hq => hp q (List.mem_cons_of_mem _ hq))
        · cases hno
      · exact absurd rfl (hp (name, FileData.junk) (List.mem_cons_self _ _))

/-- Witness for the amended C8: a parseable in-range file is marked used
without error, and a directory of parseable files walks cleanly. -/
theorem walk_amended_witness :
    deviceFileWalkFunction fullSet "f" (.record ⟨3, 0, 0, false⟩) =
      (markDeviceIDUsed fullSet 3, none) ∧
    (constructDeviceIDMap fullSet [("f", FileData.record ⟨3, 0, 0, false⟩)]).2 = none := by
  refine ⟨walk_amended.1 fullSet "f" ⟨3, 0, 0, false⟩ (by decide) (by decide)
    (by decide) (by decide), ?_⟩
  exact walk_amended.2.2.2 [("f", FileData.record ⟨3, 0, 0, false⟩)] fullSet
    (by
      intro p hp
      simp only [List.mem_singleton] at hp
      rw [hp]
      simp)

theorem snapLoop_free (o : ErrOracle) (t : DeviceSet) (id fuel : Nat)
    (h : t.poolDevs id = false) :
    snapLoop o t id (fuel + 1) =
      ({ t with poolDevs := fun j => if j = id then true else t.poolDevs j },
        some id) := by
  show (if t.poolDevs id then _ else _) = _
  rw [if_neg (by simp [h])]

/-- C6: snapshot chaining.  On a state whose base hash is registered with
an initialized `devInfo`, whose target hash is not registered and has no
metadata file, and for which the allocator yields a device ID not present
in the pool, `AddDevice` succeeds and records a `devInfo` for the new hash
whose `Size` equals the base device's `Size`; a second `AddDevice` for the
same hash fails with the already-exists error and returns the state
unchanged, the existing registration intact. -/
theorem addDevice_snapshot (s : DeviceSet) (hash baseHash : String) (bi : DevInfo)
    (sa : DeviceSet) (id : Nat)
    (hb : s.Devices baseHash = some bi)
    (hbi : bi.Initialized = true)
    (hc : s.Devices hash = none)
    (hf : s.metaFiles (metadataFileName hash) = none)
    (halloc : getNextFreeDeviceID s = (sa, some id))
    (hpool : s.poolDevs id = false) :
    (AddDevice noErr s hash baseHash).2 = none ∧
    (AddDevice noErr s hash baseHash).1.Devices hash =
      some ⟨hash, id, bi.Size, s.TransactionID + 1, false, 0, ""⟩ ∧
    AddDevice noErr (AddDevice noErr s hash baseHash).1 hash baseHash =
      ((AddDevice noErr s hash baseHash).1,
        some ("device " ++ hash ++ " already exists")) := by
  have hstart : (incNextDeviceID s).NextDeviceID < maxDeviceID + 1 := by
    rw [incNextDeviceID_NextDeviceID]
    exact Nat.mod_lt _ (by norm_num [maxDeviceID])
  obtain ⟨k, hk, hidk, hfree, hbefore, hsa⟩ :=
    scanLoop_some (maxDeviceID + 1) (incNextDeviceID s) sa id hstart halloc
  subst hsa
  have hne : ¬ baseHash = hash := by
    intro he
    rw [he, hc] at hb
    cases hb
  have hlook1 : lookupDevice s baseHash = (s, some bi) := by rw [lookupDevice, hb]
  have hload : loadMetadata s hash = none := by rw [loadMetadata, hf]
  have hlook2 : lookupDevice s hash = (s, none) := by rw [lookupDevice, hc, hload]
  have hAdd : AddDevice noErr s hash baseHash =
      createRegisterSnapDevice noErr s hash bi := by
    simp only [AddDevice, hlook1, hlook2]
  set SA : DeviceSet :=
    { markDeviceIDUsed (incNextDeviceID s) id with NextDeviceID := id } with hSAdef
  set S2 : DeviceSet :=
    { SA with
      OpenTransactionID := SA.TransactionID + 1,
      DeviceIDHash := hash,
      DeviceID := id,
      txnFile := some ⟨SA.TransactionID + 1, hash, id⟩ } with hS2def
  have hopen : openTransaction noErr SA hash id = (S2, none) := rfl
  set S3 : DeviceSet :=
    { S2 with poolDevs := fun j => if j = id then true else S2.poolDevs j } with hS3def
  have hpool2 : S2.poolDevs id = false := hpool
  have hsnap : snapLoop noErr S2 id (maxDeviceID + 1) = (S3, some id) :=
    snapLoop_free noErr S2 id maxDeviceID hpool2
  set S4 : DeviceSet :=
    { S3 with
      Devices := fun k =>
        if k = hash then
          some ⟨hash, id, bi.Size, S3.OpenTransactionID, false, 0, ""⟩
        else S3.Devices k,
      metaFiles := fun n =>
        if n = metadataFileName hash then
          some (.record ⟨id, bi.Size, S3.OpenTransactionID, false⟩)
        else S3.metaFiles n } with hS4def
  have hreg : registerDevice noErr S3 id hash bi.Size S3.OpenTransactionID =
      (S4, none) := rfl
  set S5 : DeviceSet :=
    { S4 with
      driverTransactionID := S4.OpenTransactionID,
      TransactionID := S4.OpenTransactionID } with hS5def
  have hclose : closeTransaction noErr S4 = (S5, none) := rfl
  have hcrs : createRegisterSnapDevice noErr s hash bi = (S5, none) := by
    simp only [createRegisterSnapDevice, halloc, hopen, hsnap, hreg, hclose]
  have hd5hash : S5.Devices hash =
      some ⟨hash, id, bi.Size, S3.OpenTransactionID, false, 0, ""⟩ := by
    show (if hash = hash then
        some (⟨hash, id, bi.Size, S3.OpenTransactionID, false, 0, ""⟩ : DevInfo)
      else S3.Devices hash) = _
    rw [if_pos rfl]
  have hd5base : S5.Devices baseHash = some bi := by
    show (if baseHash = hash then
        some (⟨hash, id, bi.Size, S3.OpenTransactionID, false, 0, ""⟩ : DevInfo)
      else S3.Devices baseHash) = some bi
    rw [if_neg hne]
    exact hb
  have hlook1b : lookupDevice S5 baseHash = (S5, some bi) := by
    rw [lookupDevice, hd5base]
  have hlook2b : lookupDevice S5 hash =
      (S5, some ⟨hash, id, bi.Size, S3.OpenTransactionID, false, 0, ""⟩) := by
    rw [lookupDevice, hd5hash]
  have hsnd : AddDevice noErr S5 hash baseHash =
      (S5, some ("device " ++ hash ++ " already exists")) := by
    simp only [AddDevice, hlook1b, hlook2b]
  rw [hAdd, hcrs]
  exact ⟨rfl, hd5hash, hsnd⟩

/-- Witness for C6: from the concrete base state, `AddDevice` of
`"child"` from `"base"` succeeds, records size 10240 (the base's size) and
transaction ID 4, and a repeated `AddDevice` fails with the already-exists
error leaving the state unchanged. -/
theorem addDevice_snapshot_witness :
    (AddDevice noErr snapBaseSet "child" "base").2 = none ∧
    (AddDevice noErr snapBaseSet "child" "base").1.Devices "child" =
      some ⟨"child", 1, 10240, snapBaseSet.TransactionID + 1, false, 0, ""⟩ ∧
    AddDevice noErr (AddDevice noErr snapBaseSet "child" "base").1 "child" "base" =
      ((AddDevice noErr snapBaseSet "child" "base").1,
        some ("device " ++ "child" ++ " already exists")) :=
  addDevice_snapshot snapBaseSet "child" "base"
    { Hash := "base", DeviceID := 1, Size := 10240, TransactionID := 0,
      Initialized := true, mountCount := 0, mountPath := "" }
    (getNextFreeDeviceID snapBaseSet).1 1 rfl rfl rfl rfl rfl rfl

/-- C9: metadata round trip: saving a `devInfo` and loading it back under
the same hash returns a `devInfo` equal to the original in all persisted
fields (`DeviceID`, `Size`, `TransactionID`, `Initialized`), with fresh
transient mount state. -/
theorem saveMetadata_loadMetadata_roundtrip (s : DeviceSet) (info : DevInfo) :
    loadMetadata (saveMetadata noErr s info).1 info.Hash =
      some { Hash := info.Hash, DeviceID := info.DeviceID, Size := info.Size,
             TransactionID := info.TransactionID, Initialized := info.Initialized,
             mountCount := 0, mountPath := "" } := by
  have hfile : (saveMetadata noErr s info).1.metaFiles (metadataFileName info.Hash) =
      some (.record ⟨info.DeviceID, info.Size, info.TransactionID, info.Initialized⟩) := by
    show (if metadataFileName info.Hash = metadataFileName info.Hash then _ else _) = _
    rw [if_pos rfl]
  rw [loadMetadata, hfile]

end Devmapper
